import Mathlib

/-!
Verification development for the Studio Juai PRO orchestration core
(`backend/factory_engine.py`, `backend/director.py`, `backend/main.py`).

The Python source is shallowly embedded: pure computations become Lean
functions; network calls are parameterised by oracles giving the remote
outcome; the mutable in-memory task store is threaded explicitly.  Python
floats used by the intent scorer are modelled by `ℚ` (the magnitudes that
occur — small counts and their quotients — are exact in both systems).
-/

set_option maxRecDepth 4096

namespace StudioJuai

/-! ## Enums (factory_engine.py lines 29-67) -/

/-- Enum `VideoModel`: supported video generation models. -/
inductive VideoModel where
  | kling | veo | sora | midjourney | hailuo | luma
deriving DecidableEq, Repr

/-- Value string of a `VideoModel` member (`model.value` in the source). -/
def VideoModel.value : VideoModel → String
  | .kling => "kling"
  | .veo => "veo"
  | .sora => "sora"
  | .midjourney => "midjourney"
  | .hailuo => "hailuo"
  | .luma => "luma"

/-- Python `str()` of a `VideoModel` enum member, as rendered by
`str(task_data.get("model", ""))` in `get_video_progress`. -/
def VideoModel.pyStr : VideoModel → String
  | .kling => "VideoModel.KLING"
  | .veo => "VideoModel.VEO"
  | .sora => "VideoModel.SORA"
  | .midjourney => "VideoModel.MIDJOURNEY"
  | .hailuo => "VideoModel.HAILUO"
  | .luma => "VideoModel.LUMA"

/-- Enum `AudioModel`: Suno, with Udio as the fallback provider. -/
inductive AudioModel where
  | suno | udio
deriving DecidableEq, Repr

/-- Value string of an `AudioModel` member. -/
def AudioModel.value : AudioModel → String
  | .suno => "suno"
  | .udio => "udio"

/-- Python `audio_model.value.upper()`. -/
def AudioModel.valueUpper : AudioModel → String
  | .suno => "SUNO"
  | .udio => "UDIO"

/-- Enum `ImageModel`. -/
inductive ImageModel where
  | gemini | flux | midjourney | dalle
deriving DecidableEq, Repr

/-- Enum `AspectRatio`. -/
inductive AspectRatio where
  | landscape | portrait | square | verticalFeed
deriving DecidableEq, Repr

/-- Enum `VideoQuality`. -/
inductive VideoQuality where
  | sd | hd | fhd | uhd
deriving DecidableEq, Repr

/-! ## Request / response dataclasses (factory_engine.py lines 73-158) -/

/-- Dataclass `VideoRequest`. -/
structure VideoRequest where
  project_id : String
  prompt : String
  model : VideoModel := .kling
  aspect_ratio : AspectRatio := .portrait
  duration : Int := 5
  style_preset : String := "warm_film"
  image_url : Option String := none
  negative_prompt : Option String := none
  quality : VideoQuality := .fhd
deriving DecidableEq, Repr

/-- Dataclass `VideoResponse`. -/
structure VideoResponse where
  success : Bool
  task_id : Option String := none
  video_url : Option String := none
  status : String := "pending"
  message : String := ""
  model : String := ""
  progress : Int := 0
deriving DecidableEq, Repr

/-- Dataclass `MusicRequest`. -/
structure MusicRequest where
  prompt : String
  style : String := "pop"
  duration : Int := 30
  instrumental : Bool := false
deriving DecidableEq, Repr

/-- Dataclass `MusicResponse`. -/
structure MusicResponse where
  success : Bool
  task_id : Option String := none
  audio_url : Option String := none
  status : String := "pending"
  message : String := ""
  model : String := "suno"
deriving DecidableEq, Repr

/-- Dataclass `ImageRequest`. -/
structure ImageRequest where
  prompt : String
  model : ImageModel := .flux
  aspect_ratio : AspectRatio := .portrait
  style : String := "realistic"
  negative_prompt : Option String := none
deriving DecidableEq, Repr

/-- Dataclass `ImageResponse`. -/
structure ImageResponse where
  success : Bool
  task_id : Option String := none
  image_url : Option String := none
  status : String := "pending"
  message : String := ""
  model : String := "flux"
deriving DecidableEq, Repr

/-! ## Style catalog (factory_engine.py lines 165-196) -/

/-- One entry of the `STYLE_PRESETS` dict. -/
structure StylePreset where
  name : String
  prompt_suffix : String
  color_grade : String
deriving DecidableEq, Repr

/-- The `"warm_film"` entry of `STYLE_PRESETS` (the default preset). -/
def warmFilmPreset : StylePreset :=
  { name := "따뜻한 필름"
    prompt_suffix := "shot on iPhone 15 Pro, warm film look, natural lighting, cinematic grain, 4K quality"
    color_grade := "warm" }

/-- The `STYLE_PRESETS` dict, as an association list in source order. -/
def STYLE_PRESETS : List (String × StylePreset) :=
  [ ("warm_film", warmFilmPreset),
    ("cool_modern",
      { name := "시원한 모던"
        prompt_suffix := "clean modern aesthetic, cool blue tones, sharp details, professional lighting, 4K quality"
        color_grade := "cool" }),
    ("golden_hour",
      { name := "골든아워"
        prompt_suffix := "golden hour lighting, warm sunset colors, soft shadows, dreamy atmosphere, cinematic, 4K quality"
        color_grade := "golden" }),
    ("cinematic_teal_orange",
      { name := "시네마틱"
        prompt_suffix := "cinematic teal and orange color grade, dramatic lighting, film grain, anamorphic lens flare, 4K HDR"
        color_grade := "teal_orange" }),
    ("noir",
      { name := "느와르"
        prompt_suffix := "high contrast black and white, dramatic shadows, film noir style, moody atmosphere, 4K quality"
        color_grade := "noir" }),
    ("vibrant",
      { name := "비비드"
        prompt_suffix := "vibrant saturated colors, punchy contrast, energetic mood, professional color grade, 4K quality"
        color_grade := "vibrant" }) ]

/-- Style resolution as performed at every submission site:
`STYLE_PRESETS.get(request.style_preset, STYLE_PRESETS["warm_film"])`
(factory_engine.py lines 330 and 550). -/
def resolvePreset (presetId : String) : StylePreset :=
  (STYLE_PRESETS.lookup presetId).getD ((STYLE_PRESETS.lookup "warm_film").getD warmFilmPreset)

/-- Prompt enhancement shared by `KlingOfficialClient.generate_video`
(factory_engine.py line 331) and `GoAPIClient._build_video_request`
(line 551): `f"{request.prompt}, {preset['prompt_suffix']}"`. -/
def enhancedPrompt (prompt : String) (presetId : String) : String :=
  prompt ++ ", " ++ (resolvePreset presetId).prompt_suffix

/-! ## Intent Router (director.py) -/

/-- Enum `IntentCategory` (director.py lines 29-36). -/
inductive IntentCategory where
  | realism_action | character_product | informational | cinematic | music_audio | unknown
deriving DecidableEq, Repr, Fintype

/-- Value string of an `IntentCategory` member. -/
def IntentCategory.value : IntentCategory → String
  | .realism_action => "realism_action"
  | .character_product => "character_product"
  | .informational => "informational"
  | .cinematic => "cinematic"
  | .music_audio => "music_audio"
  | .unknown => "unknown"

/-- The categories in Python enum definition order — the iteration order of
the `scores` dict built by `_calculate_intent_scores` (director.py line 209). -/
def categoryOrder : List IntentCategory :=
  [.realism_action, .character_product, .informational, .cinematic, .music_audio, .unknown]

/-- Python `str.lower()` restricted to the ASCII range, character-wise
(identity on Hangul, which is all that occurs in the keyword table). -/
def pyLowerChar (c : Char) : Char :=
  if 65 ≤ c.toNat ∧ c.toNat ≤ 90 then Char.ofNat (c.toNat + 32) else c

/-- Python `str.lower()` of a whole string. -/
def pyLower (s : String) : String := ⟨s.data.map pyLowerChar⟩

/-- The `INTENT_KEYWORDS` table (director.py lines 88-113); the `unknown`
category has no keyword list in the source, hence the empty list. -/
def INTENT_KEYWORDS : IntentCategory → List String
  | .realism_action =>
      ["자동차", "car", "racing", "레이싱", "스포츠", "sports", "추격",
       "chase", "액션", "action", "드론", "drone", "fpv", "물리",
       "physics", "폭발", "explosion", "속도", "speed", "질주"]
  | .character_product =>
      ["인물", "character", "person", "모델", "model", "룩북", "lookbook",
       "쇼핑몰", "shopping", "제품", "product", "패션", "fashion",
       "일관성", "consistent", "동일", "same", "캐릭터", "얼굴", "face"]
  | .informational =>
      ["리포터", "reporter", "뉴스", "news", "강의", "lecture", "설명",
       "explanation", "아바타", "avatar", "대변인", "spokesperson",
       "발표", "presentation", "안내", "guide", "정보", "information"]
  | .cinematic =>
      ["영화", "movie", "film", "시네마틱", "cinematic", "인트로", "intro",
       "배경", "background", "풍경", "landscape", "4k", "8k", "epic",
       "dramatic", "스토리", "story", "장면", "scene"]
  | .music_audio =>
      ["음악", "music", "bgm", "배경음악", "효과음", "sound", "audio",
       "멜로디", "melody", "비트", "beat", "instrumental"]
  | .unknown => []

/-- Substring containment on character lists, modelling Python's `in` on
strings. -/
def listContains (pat : List Char) : List Char → Bool
  | [] => pat.isEmpty
  | c :: rest => pat.isPrefixOf (c :: rest) || listContains pat rest

/-- One keyword test of `_calculate_intent_scores` (director.py line 213):
`keyword.lower() in text_lower`, i.e. case-insensitive substring match. -/
def kwMatches (text kw : String) : Bool :=
  listContains (pyLower kw).data (pyLower text).data

/-- The un-normalised per-category count accumulated by the inner loop of
`_calculate_intent_scores` (director.py lines 211-214). -/
def rawScore (text : String) (cat : IntentCategory) : Nat :=
  (INTENT_KEYWORDS cat).countP (kwMatches text)

/-- Normalisation total `total = sum(scores.values())` (director.py
line 217). -/
def totalScore (text : String) : Nat :=
  (categoryOrder.map (rawScore text)).sum

/-- The normalised scores dict returned by `_calculate_intent_scores`
(director.py lines 206-223): counts divided by the total when any keyword
matched, otherwise all mass on the fixed default category `cinematic`. -/
def intentScores (text : String) (cat : IntentCategory) : ℚ :=
  if 0 < totalScore text then
    (rawScore text cat : ℚ) / (totalScore text : ℚ)
  else
    if cat = IntentCategory.cinematic then 1 else 0

/-- Python `max(iterable, key=f)`: first element attaining the maximum of
`f`, later elements replacing the champion only on a strictly greater key. -/
def pyMaxKey (f : IntentCategory → ℚ) : List IntentCategory → IntentCategory
  | [] => IntentCategory.unknown
  | c :: cs => cs.foldl (fun best x => if f best < f x then x else best) c

/-- The decision `final_intent = max(intent_scores, key=intent_scores.get)`
(director.py line 187) on the keyword-only path (`self.model is None`, so
no Gemini refinement merges into the scores). -/
def analyzeIntentDecision (text : String) : IntentCategory :=
  pyMaxKey (intentScores text) categoryOrder

/-! ## GoAPI status polling (factory_engine.py `GoAPIClient.check_status`,
lines 982-1058) -/

/-- Python string truthiness for an optional string field: `None` and the
empty string are falsy. -/
def truthyStr : Option String → Bool
  | none => false
  | some s => !(s == "")

/-- Python `a or b` on optional/empty-string values: keeps `a` when truthy. -/
def pyOrS (a b : Option String) : Option String :=
  if truthyStr a then a else b

/-- One element of `output["works"]` in a GoAPI task payload, restricted to
the fields `check_status` reads. -/
structure RawWork where
  video_resource : Option String := none
  video_resource_no_watermark : Option String := none
  resource_resource : Option String := none
deriving DecidableEq, Repr

/-- The `output` object of a GoAPI task payload. -/
structure RawOutput where
  works : List RawWork := []
  video_url : Option String := none
  url : Option String := none
  status_num : Int := 0
deriving DecidableEq, Repr

/-- The `data` object of a GoAPI `GET /task/{id}` payload with HTTP 200 and
`code == 200`: `status = task_data.get("status", "processing")` and the
`output` dict (absence of either key is the caller passing the default). -/
structure RawTaskData where
  status : String := "processing"
  output : RawOutput := {}
deriving DecidableEq, Repr

namespace GoAPIClient

/-- The happy-path body of `GoAPIClient.check_status` (factory_engine.py
lines 997-1043): translation of the provider status vocabulary into the
canonical one, multi-path result-URL extraction, and progress derivation. -/
def check_status_parse (task_id : String) (td : RawTaskData) (model : VideoModel) :
    VideoResponse :=
  let status := td.status
  let output := td.output
  -- `video_url = None; progress = 50`
  if status = "completed" ∨ status = "succeed" then
    let video_url :=
      match output.works with
      | [] => none
      | work :: _ =>
          pyOrS work.video_resource
            (pyOrS work.video_resource_no_watermark
              (pyOrS work.resource_resource output.video_url))
    let video_url :=
      if ¬ truthyStr video_url ∧ model = VideoModel.veo then
        pyOrS output.video_url output.url
      else video_url
    { success := true, task_id := some task_id, video_url := video_url,
      status := "completed", progress := 100, model := model.value }
  else if status = "failed" then
    { success := true, task_id := some task_id, video_url := none,
      status := status, progress := 0, model := model.value }
  else if status = "pending" then
    { success := true, task_id := some task_id, video_url := none,
      status := status, progress := 10, model := model.value }
  else if status = "processing" then
    { success := true, task_id := some task_id, video_url := none,
      status := status, progress := min 90 (max 20 output.status_num),
      model := model.value }
  else
    { success := true, task_id := some task_id, video_url := none,
      status := status, progress := 50, model := model.value }

/-- The non-200 / exception path of `GoAPIClient.check_status`
(factory_engine.py lines 1045-1058): `success=False, status="error"` with
the default `progress=0`. -/
def check_status_error (msg : String) (model : VideoModel) : VideoResponse :=
  { success := false, status := "error", message := msg, model := model.value }

end GoAPIClient

/-! ## Background polling loop (main.py `poll_video_status`, lines 789-816)
and the progress endpoint (main.py `get_video_progress`, lines 819-838) -/

/-- One `task_store[project_id]` entry as written by the video generation
endpoint (main.py lines 756-765) and updated by the poller.  The `message`
key is absent until the first poll writes it, hence `Option`.  The metadata
keys `routing_info` and `created_at`, never read or written by the poller
or the progress endpoint logic under study, are elided. -/
structure TaskEntry where
  task_id : Option String := none
  model : VideoModel := .kling
  status : String := "processing"
  progress : Int := 10
  video_url : Option String := none
  error_message : Option String := none
  message : Option String := none
deriving DecidableEq, Repr

/-- The entry stored at submission time (main.py lines 756-765). -/
def initialTaskEntry (task_id : String) (model : VideoModel) : TaskEntry :=
  { task_id := some task_id, model := model, status := "processing",
    progress := 10, video_url := none, error_message := none, message := none }

/-- Polling interval `poll_interval = 3` (main.py line 792). -/
def poll_interval : Nat := 3

/-- Polling budget `max_attempts = 200` (main.py line 791). -/
def max_attempts : Nat := 200

/-- The store update performed by one iteration of `poll_video_status`
(main.py lines 799-816) when the entry is present: status/progress/URL are
overwritten unconditionally with the poll result, then the message, and the
failure branch additionally records the error detail. -/
def applyPoll (attempt : Nat) (e : TaskEntry) (r : VideoResponse) : TaskEntry :=
  let elapsed := (attempt + 1) * poll_interval
  let e := { e with status := r.status, progress := r.progress,
                    video_url := r.video_url,
                    message := some ("생성 중... (" ++ toString elapsed ++ "초 경과)") }
  if r.status = "completed" ∧ truthyStr r.video_url then
    { e with message := some "영상 생성 완료!" }
  else if r.status = "failed" then
    let error_msg := if r.message = "" then "영상 생성 실패" else r.message
    { e with error_message := some error_msg,
             message := some ("❌ " ++ error_msg) }
  else e

/-- The loop-exit condition of `poll_video_status`: `break` fires on
`completed` with a truthy URL, or on `failed` (main.py lines 807-816). -/
def breakCond (r : VideoResponse) : Bool :=
  (r.status = "completed" ∧ truthyStr r.video_url) ∨ r.status = "failed"

/-- The `for attempt in range(max_attempts)` body of `poll_video_status`,
threading the (possibly absent) store entry through the sequence of poll
results `rs`; a missing entry skips the update and the break. -/
def pollLoop (attempt : Nat) (store : Option TaskEntry) : List VideoResponse → Option TaskEntry
  | [] => store
  | r :: rs =>
      match store with
      | none => pollLoop (attempt + 1) none rs
      | some e =>
          let e2 := applyPoll attempt e r
          if breakCond r then some e2 else pollLoop (attempt + 1) (some e2) rs

/-- The whole of `poll_video_status` (main.py lines 789-816): runs at most
`max_attempts` polls and returns the final store entry.  `rs` is the
sequence of responses `factory.check_video_status` would deliver on
successive polls. -/
def poll_video_status (store : Option TaskEntry) (rs : List VideoResponse) : Option TaskEntry :=
  pollLoop 0 store (rs.take max_attempts)

/-- FastAPI `HTTPException` carrier. -/
structure HTTPErrorResult where
  status_code : Nat
  detail : String
deriving DecidableEq, Repr

/-- Response model `VideoStatusResponse` (main.py lines 194-203) of the
progress endpoint (`routing_info` metadata elided, as in `TaskEntry`). -/
structure VideoStatusResponse where
  success : Bool
  project_id : String
  task_id : Option String := none
  status : String
  progress : Int
  message : String
  video_url : Option String := none
  model : String := ""
deriving DecidableEq, Repr

/-- The endpoint `get_video_progress` (main.py lines 819-838): looks the
project up in the task store and returns the stored fields (with the
source's `.get` defaults); the store is returned unchanged alongside the
result, making the absence of writes explicit. -/
def get_video_progress (store : List (String × TaskEntry)) (project_id : String) :
    (Except HTTPErrorResult VideoStatusResponse) × List (String × TaskEntry) :=
  match store.lookup project_id with
  | none => (Except.error { status_code := 404, detail := "프로젝트를 찾을 수 없습니다." }, store)
  | some td =>
      (Except.ok
        { success := true
          project_id := project_id
          task_id := td.task_id
          status := td.status
          progress := td.progress
          message := td.message.getD "처리 중..."
          video_url := td.video_url
          model := td.model.pyStr }, store)

/-! ## Factory engine dispatch (factory_engine.py `FactoryEngine` and the
client-side credential guards) -/

/-- The adapter environment seen by the `FactoryEngine` facade:
per-provider availability (presence of credentials) and submission oracles
giving the outcome a client's network submission would produce when it is
actually attempted. -/
structure AdapterEnv where
  kling_official_available : Bool
  goapi_available : Bool
  kling_official_submit : VideoRequest → VideoResponse
  goapi_submit : VideoRequest → VideoResponse

namespace FactoryEngine

/-- The facade `FactoryEngine.generate_video` (factory_engine.py lines
1911-1955), paired with the list of adapters actually invoked, in order.
`model == KLING` routes exclusively to the official client: on
unavailability, or on submission failure, the error is returned directly
with no GoAPI fallback; every other model goes to GoAPI when available. -/
def generate_video (env : AdapterEnv) (request : VideoRequest) :
    VideoResponse × List String :=
  if request.model = VideoModel.kling then
    if env.kling_official_available then
      let result := env.kling_official_submit request
      if result.success then
        ({ result with model := "kling_official" }, ["kling_official"])
      else
        (result, ["kling_official"])
    else
      ({ success := false, status := "error",
         message := "Kling Official API 키가 설정되지 않았습니다. (GoAPI 폴백 비활성화)" }, [])
  else
    if env.goapi_available then
      (env.goapi_submit request, ["goapi"])
    else
      ({ success := false, status := "error",
         message := "GoAPI 키가 설정되지 않았습니다." }, [])

/-- Every assignment the source performs on the caller's request object
inside `FactoryEngine.generate_video` (factory_engine.py lines 1911-1955):
there is none — the function only reads the request — so the object is
returned unchanged. -/
def generate_video_requestAfter (request : VideoRequest) : VideoRequest :=
  request

/-- Every assignment the source performs on the caller's request object
inside `FactoryEngine.generate_image`: line 1986 executes
`request.model = ImageModel.FLUX` when the incoming model is GEMINI; no
other field of the request is ever assigned. -/
def generate_image_requestAfter (request : ImageRequest) : ImageRequest :=
  if request.model = ImageModel.gemini then
    { request with model := ImageModel.flux }
  else
    request

end FactoryEngine

namespace GoAPIClient

/-- The credential guard of `GoAPIClient.generate_video` (factory_engine.py
lines 607-616): with no API key the not-configured error is returned before
any network call; otherwise the submission outcome is the oracle `submit`. -/
def generate_video (api_key_present : Bool) (submit : VideoResponse)
    (request : VideoRequest) : VideoResponse :=
  if ¬ api_key_present then
    { success := false, status := "error",
      message := "GoAPI 키가 설정되지 않았습니다.", model := request.model.value }
  else
    submit

/-- Python string slicing `s[:n]`. -/
def pyTake (s : String) (n : Nat) : String := ⟨s.data.take n⟩

/-- The failure message `_generate_music_with_model` returns for a non-200
HTTP reply or a non-200 provider code (factory_engine.py lines 733-741). -/
def music_http_failure_message (audio_model : AudioModel) (status_code : Nat) : String :=
  "현재 " ++ audio_model.valueUpper ++ " 음악 서버 점검 중입니다. (HTTP " ++
    toString status_code ++ ")"

/-- The failure message `_generate_music_with_model` returns on a
connection exception (factory_engine.py lines 743-749). -/
def music_conn_failure_message (audio_model : AudioModel) : String :=
  "현재 " ++ audio_model.valueUpper ++ " 서버 연결에 실패했습니다. 잠시 후 다시 시도해주세요."

/-- The fallback orchestration of `GoAPIClient.generate_music`
(factory_engine.py lines 751-799): try the preferred model; on failure fall
back exactly once to the single alternate model (Suno ↔ Udio), tagging a
successful fallback's message; on double failure combine both error
messages, each truncated by `[:100]`.  `attempt` is the oracle for
`_generate_music_with_model`; the returned list records the models
attempted, in order. -/
def generate_music (api_key_present : Bool) (attempt : AudioModel → MusicResponse)
    (preferred_model : AudioModel) : MusicResponse × List AudioModel :=
  if ¬ api_key_present then
    ({ success := false, status := "error",
       message := "GoAPI 키가 설정되지 않았습니다." }, [])
  else
    let result := attempt preferred_model
    if result.success then
      (result, [preferred_model])
    else
      let fallback_model :=
        if preferred_model = AudioModel.suno then AudioModel.udio else AudioModel.suno
      let fallback_result := attempt fallback_model
      if fallback_result.success then
        ({ fallback_result with message := "[Fallback] " ++ fallback_result.message },
          [preferred_model, fallback_model])
      else
        ({ success := false, status := "error",
           message := "Suno, Udio 모두 실패. Suno: " ++ pyTake result.message 100 ++
             " / Udio: " ++ pyTake fallback_result.message 100 },
          [preferred_model, fallback_model])

end GoAPIClient

namespace CreatomateClient

/-- The guard of `CreatomateClient.auto_edit` (factory_engine.py lines
1753-1779 and following): with no API key it returns a *successful* dummy
response echoing the original video URL with status `"completed"`; with a
key the real render call is performed, whose outcome is the oracle
`render_result`. -/
def auto_edit (is_available : Bool) (render_result : VideoResponse)
    (project_id : String) (video_url : String) : VideoResponse :=
  if ¬ is_available then
    { success := true, task_id := some ("dummy_edit_" ++ project_id),
      video_url := some video_url, status := "completed",
      message := "자막이 추가되었습니다. (Creatomate 미연동)",
      model := "creatomate_dummy", progress := 100 }
  else
    render_result

end CreatomateClient

/-! ## Helper lemmas -/

lemma mem_categoryOrder (cat : IntentCategory) : cat ∈ categoryOrder := by
  cases cat <;> simp [categoryOrder]

lemma rawScore_le_totalScore (text : String) (cat : IntentCategory) :
    rawScore text cat ≤ totalScore text := by
  refine List.single_le_sum (fun x _ => Nat.zero_le x) _ ?_
  exact List.mem_map_of_mem (rawScore text) (mem_categoryOrder cat)

lemma pollLoop_none : ∀ (rs : List VideoResponse) (attempt : Nat),
    pollLoop attempt none rs = none := by
  intro rs
  induction rs with
  | nil => intro attempt; rfl
  | cons r rs ih => intro attempt; rw [pollLoop]; exact ih (attempt + 1)

lemma applyPoll_status (attempt : Nat) (e : TaskEntry) (r : VideoResponse) :
    (applyPoll attempt e r).status = r.status := by
  unfold applyPoll
  by_cases h1 : r.status = "completed" ∧ truthyStr r.video_url
  · simp [h1]
  · by_cases h2 : r.status = "failed" <;> simp [h1, h2]

lemma pollLoop_break_absorbs :
    ∀ (rs1 : List VideoResponse) (attempt : Nat) (store : Option TaskEntry)
      (r : VideoResponse) (rest : List VideoResponse), breakCond r = true →
      pollLoop attempt store (rs1 ++ r :: rest) = pollLoop attempt store (rs1 ++ [r]) := by
  intro rs1
  induction rs1 with
  | nil =>
    intro attempt store r rest hr
    cases store with
    | none => simp [pollLoop, pollLoop_none]
    | some e => simp [pollLoop, hr]
  | cons x xs ih =>
    intro attempt store r rest hr
    cases store with
    | none =>
      simp only [List.cons_append, pollLoop, pollLoop_none]
    | some e =>
      simp only [List.cons_append, pollLoop]
      by_cases hx : breakCond x = true
      · simp [hx]
      · simp only [Bool.not_eq_true] at hx
        simp [hx, ih _ _ _ _ hr]

lemma pollLoop_first_break :
    ∀ (rs1 : List VideoResponse) (attempt : Nat) (e : TaskEntry)
      (r : VideoResponse) (rest : List VideoResponse),
      (∀ r' ∈ rs1, breakCond r' = false) → breakCond r = true →
      ∃ e', pollLoop attempt (some e) (rs1 ++ r :: rest) = some e' ∧ e'.status = r.status := by
  intro rs1
  induction rs1 with
  | nil =>
    intro attempt e r rest _ hr
    refine ⟨applyPoll attempt e r, ?_, applyPoll_status attempt e r⟩
    simp [pollLoop, hr]
  | cons x xs ih =>
    intro attempt e r rest hpre hr
    have hx : breakCond x = false := hpre x (List.mem_cons_self x xs)
    have hxs : ∀ r' ∈ xs, breakCond r' = false := fun r' h => hpre r' (List.mem_cons_of_mem x h)
    simp only [List.cons_append, pollLoop, hx]
    simpa using ih (attempt + 1) (applyPoll attempt e x) r rest hxs hr

lemma clamp_mem (n : Int) : 20 ≤ min 90 (max 20 n) ∧ min 90 (max 20 n) ≤ 90 :=
  ⟨le_min (by norm_num) (le_max_left 20 n), min_le_left 90 (max 20 n)⟩

lemma pyTake_of_length_le (s : String) (n : Nat) (h : s.data.length ≤ n) :
    GoAPIClient.pyTake s n = s := by
  unfold GoAPIClient.pyTake
  rw [List.take_of_length_le h]

/-! ## Claims -/

/-- C8: resolving an unknown (in particular the empty) preset id yields
exactly the preset resolved for the default id `"warm_film"`, and the
prompt suffix appended to the provider payload is therefore identical;
resolution is a total function and never fails. -/
theorem resolvePreset_unknown_eq_default (presetId prompt : String)
    (h : STYLE_PRESETS.lookup presetId = none) :
    resolvePreset presetId = resolvePreset "warm_film" ∧
    (resolvePreset presetId).prompt_suffix = warmFilmPreset.prompt_suffix ∧
    enhancedPrompt prompt presetId = enhancedPrompt prompt "warm_film" := by
  have hdef : STYLE_PRESETS.lookup "warm_film" = some warmFilmPreset := rfl
  refine ⟨?_, ?_, ?_⟩ <;>
    simp [resolvePreset, enhancedPrompt, h, hdef]

/-- Witness for C8 at the unknown id `"vaporwave"` and the empty id `""`. -/
theorem resolvePreset_unknown_eq_default_witness :
    resolvePreset "vaporwave" = resolvePreset "warm_film" ∧
    resolvePreset "" = resolvePreset "warm_film" := by
  refine ⟨(resolvePreset_unknown_eq_default "vaporwave" "p" ?_).1,
          (resolvePreset_unknown_eq_default "" "p" ?_).1⟩ <;> rfl

/-- C9: (a) any input text containing a known intent keyword of some
category — case-insensitive substring match — receives a strictly positive
normalised score for that category; (b) if no keyword of any category
matches, the classification decision is the fixed default category
`cinematic`. -/
theorem intent_keyword_scoring_spec (text : String) :
    (∀ cat : IntentCategory, ∀ kw ∈ INTENT_KEYWORDS cat,
        kwMatches text kw = true → 0 < intentScores text cat) ∧
    ((∀ cat : IntentCategory, ∀ kw ∈ INTENT_KEYWORDS cat,
        kwMatches text kw = false) → analyzeIntentDecision text = .cinematic) := by
  constructor
  · intro cat kw hkw hmatch
    have hraw : 0 < rawScore text cat := by
      rw [rawScore, List.countP_pos_iff]
      exact ⟨kw, hkw, hmatch⟩
    have htot : 0 < totalScore text := lt_of_lt_of_le hraw (rawScore_le_totalScore text cat)
    rw [intentScores, if_pos htot]
    have h1 : (0 : ℚ) < (rawScore text cat : ℚ) := by exact_mod_cast hraw
    have h2 : (0 : ℚ) < (totalScore text : ℚ) := by exact_mod_cast htot
    exact div_pos h1 h2
  · intro hnone
    have hraw : ∀ cat : IntentCategory, rawScore text cat = 0 := by
      intro cat
      rw [rawScore, List.countP_eq_zero]
      intro kw hkw
      simp [hnone cat kw hkw]
    have htot : totalScore text = 0 := by
      simp [totalScore, categoryOrder, hraw]
    have hscore : ∀ cat : IntentCategory,
        intentScores text cat = if cat = IntentCategory.cinematic then 1 else 0 := by
      intro cat
      simp [intentScores, htot]
    unfold analyzeIntentDecision pyMaxKey categoryOrder
    simp only [List.foldl, hscore]
    decide

/-- Witness for C9: "racing car chase" matches the keyword `"car"` of the
realism/action category, and `"hello there"` matches no keyword at all. -/
theorem intent_keyword_scoring_spec_witness :
    0 < intentScores "racing car chase" .realism_action ∧
    analyzeIntentDecision "hello there" = .cinematic := by
  constructor
  · exact (intent_keyword_scoring_spec "racing car chase").1 .realism_action "car"
      (by decide) (by decide)
  · exact (intent_keyword_scoring_spec "hello there").2 (by decide)

/-- C1 (code bug): a provider that reports the non-terminal status
`"processing"` on every poll exhausts the 200-poll budget, after which
`poll_video_status` simply exits the loop: the stored entry is left at
status `"processing"` with no error recorded — it is never marked
`"failed"` with a timeout error, contradicting the specified timeout
behaviour. -/
theorem poll_budget_exhaustion_never_marks_failed :
    (poll_video_status (some (initialTaskEntry "task-1" VideoModel.sora))
        (List.replicate 250
          (GoAPIClient.check_status_parse "task-1"
            { status := "processing", output := { status_num := 50 } }
            VideoModel.sora))).map
      (fun e => (e.status, e.error_message)) = some ("processing", none) := by
  decide

/-- C2 counterexample: a poll that parses the provider signal `"succeed"`
with an empty `works` list records the terminal status `"completed"` in the
store (with no result URL), does not break the loop, and the next poll
overwrites that recorded terminal status with `"processing"`. -/
theorem terminal_status_overwritten_cex :
    ((pollLoop 0 (some (initialTaskEntry "t" VideoModel.sora))
        [GoAPIClient.check_status_parse "t" { status := "succeed", output := {} }
          VideoModel.sora]).map TaskEntry.status = some "completed") ∧
    ((pollLoop 0 (some (initialTaskEntry "t" VideoModel.sora))
        [GoAPIClient.check_status_parse "t" { status := "succeed", output := {} }
          VideoModel.sora,
         GoAPIClient.check_status_parse "t"
          { status := "processing", output := { status_num := 50 } }
          VideoModel.sora]).map TaskEntry.status = some "processing") := by
  refine ⟨by decide, by decide⟩

/-- C2 as amended: once the polling loop consumes a response satisfying its
break condition — status `"failed"`, or status `"completed"` together with
a truthy result URL — all later poll responses are ignored, so the recorded
terminal status is never overwritten; and if no earlier response broke the
loop, the entry recorded at the break indeed carries that terminal status.
(A `"completed"` response without a result URL is not sticky: see the
counterexample.) -/
theorem terminal_break_is_sticky :
    (∀ (attempt : Nat) (store : Option TaskEntry) (rs1 : List VideoResponse)
       (r : VideoResponse) (rest : List VideoResponse), breakCond r = true →
       pollLoop attempt store (rs1 ++ r :: rest) = pollLoop attempt store (rs1 ++ [r])) ∧
    (∀ (attempt : Nat) (e : TaskEntry) (rs1 : List VideoResponse)
       (r : VideoResponse) (rest : List VideoResponse),
       (∀ r' ∈ rs1, breakCond r' = false) → breakCond r = true →
       ∃ e', pollLoop attempt (some e) (rs1 ++ r :: rest) = some e' ∧
         e'.status = r.status) :=
  ⟨fun attempt store rs1 r rest hr => pollLoop_break_absorbs rs1 attempt store r rest hr,
   fun attempt e rs1 r rest hpre hr => pollLoop_first_break rs1 attempt e r rest hpre hr⟩

/-- Witness for C2 (amended): a concrete failed response following one
non-terminal response is sticky against two further polls. -/
theorem terminal_break_is_sticky_witness :
    (pollLoop 0 (some (initialTaskEntry "t" VideoModel.sora))
      ([GoAPIClient.check_status_parse "t"
          { status := "processing", output := { status_num := 40 } } VideoModel.sora] ++
        GoAPIClient.check_status_parse "t" { status := "failed", output := {} }
          VideoModel.sora ::
        [GoAPIClient.check_status_parse "t"
          { status := "processing", output := { status_num := 70 } } VideoModel.sora,
         GoAPIClient.check_status_parse "t" { status := "succeed", output := {} }
          VideoModel.sora]) =
    pollLoop 0 (some (initialTaskEntry "t" VideoModel.sora))
      ([GoAPIClient.check_status_parse "t"
          { status := "processing", output := { status_num := 40 } } VideoModel.sora] ++
        [GoAPIClient.check_status_parse "t" { status := "failed", output := {} }
          VideoModel.sora])) ∧
    (∃ e', pollLoop 0 (some (initialTaskEntry "t" VideoModel.sora))
      ([GoAPIClient.check_status_parse "t"
          { status := "processing", output := { status_num := 40 } } VideoModel.sora] ++
        GoAPIClient.check_status_parse "t" { status := "failed", output := {} }
          VideoModel.sora ::
        [GoAPIClient.check_status_parse "t"
          { status := "processing", output := { status_num := 70 } } VideoModel.sora,
         GoAPIClient.check_status_parse "t" { status := "succeed", output := {} }
          VideoModel.sora]) = some e' ∧ e'.status = "failed") := by
  constructor
  · exact terminal_break_is_sticky.1 0 _ _ _ _ (by decide)
  · exact terminal_break_is_sticky.2 0 _ _ _ _ (by decide) (by decide)

/-- C3 counterexample: the stored progress follows the provider-derived
value and is not monotone — two successive non-terminal polls store 80 then
30 — and a transient status-check error stores progress 0 with status
`"error"` (0 without a `"failed"` status). -/
theorem progress_not_monotone_cex :
    ((pollLoop 0 (some (initialTaskEntry "t" VideoModel.sora))
        [GoAPIClient.check_status_parse "t"
          { status := "processing", output := { status_num := 80 } } VideoModel.sora]).map
      (fun e => (e.status, e.progress)) = some ("processing", 80)) ∧
    ((pollLoop 0 (some (initialTaskEntry "t" VideoModel.sora))
        [GoAPIClient.check_status_parse "t"
          { status := "processing", output := { status_num := 80 } } VideoModel.sora,
         GoAPIClient.check_status_parse "t"
          { status := "processing", output := { status_num := 30 } } VideoModel.sora]).map
      (fun e => (e.status, e.progress)) = some ("processing", 30)) ∧
    ((pollLoop 0 (some (initialTaskEntry "t" VideoModel.sora))
        [GoAPIClient.check_status_parse "t"
          { status := "processing", output := { status_num := 80 } } VideoModel.sora,
         GoAPIClient.check_status_parse "t"
          { status := "processing", output := { status_num := 30 } } VideoModel.sora,
         GoAPIClient.check_status_error "상태 조회 오류: timeout" VideoModel.sora]).map
      (fun e => (e.status, e.progress)) = some ("error", 0)) := by
  refine ⟨by decide, by decide, by decide⟩

/-- C3 as amended: every response parsed from a successful GoAPI status
query has progress exactly 100 iff its canonical status is `"completed"`,
and progress exactly 0 iff its status is `"failed"`; stored progress is the
provider-derived value of each poll and is not monotonically non-decreasing
(see the counterexample). -/
theorem check_status_progress_iff (task_id : String) (td : RawTaskData) (model : VideoModel) :
    ((GoAPIClient.check_status_parse task_id td model).progress = 100 ↔
      (GoAPIClient.check_status_parse task_id td model).status = "completed") ∧
    ((GoAPIClient.check_status_parse task_id td model).progress = 0 ↔
      (GoAPIClient.check_status_parse task_id td model).status = "failed") := by
  obtain ⟨hlo, hhi⟩ := clamp_mem td.output.status_num
  unfold GoAPIClient.check_status_parse
  dsimp only
  by_cases h1 : td.status = "completed" ∨ td.status = "succeed"
  · rw [if_pos h1]
    simp
  · rw [if_neg h1]
    by_cases h2 : td.status = "failed"
    · rw [if_pos h2]
      simp [h2]
    · rw [if_neg h2]
      by_cases h3 : td.status = "pending"
      · rw [if_pos h3]
        simp [h3]
      · rw [if_neg h3]
        by_cases h4 : td.status = "processing"
        · rw [if_pos h4, h4]
          dsimp only
          refine ⟨⟨fun h => ?_, fun h => absurd h (by decide)⟩,
                  ⟨fun h => ?_, fun h => absurd h (by decide)⟩⟩
          · rw [h] at hhi
            norm_num at hhi
          · rw [h] at hlo
            norm_num at hlo
        · rw [if_neg h4]
          push_neg at h1
          dsimp only
          refine ⟨⟨fun h => ?_, fun h => absurd h h1.1⟩,
                  ⟨fun h => ?_, fun h => absurd h h2⟩⟩
          · norm_num at h
          · norm_num at h

/-- C10: querying progress for an unregistered project id yields the 404
not-found error and leaves the task store unchanged; for a registered task
the read returns the stored status, progress and result URL without
modifying the store, and an immediately repeated read returns the same
result. -/
theorem get_video_progress_spec (store : List (String × TaskEntry)) (project_id : String) :
    ((get_video_progress store project_id).2 = store) ∧
    (store.lookup project_id = none →
      (get_video_progress store project_id).1 =
        Except.error { status_code := 404, detail := "프로젝트를 찾을 수 없습니다." }) ∧
    (∀ e, store.lookup project_id = some e →
      ∃ r, (get_video_progress store project_id).1 = Except.ok r ∧
        r.success = true ∧ r.status = e.status ∧ r.progress = e.progress ∧
        r.video_url = e.video_url ∧ r.task_id = e.task_id) ∧
    (get_video_progress ((get_video_progress store project_id).2) project_id =
      get_video_progress store project_id) := by
  unfold get_video_progress
  cases h : store.lookup project_id with
  | none => simp [h]
  | some e =>
    refine ⟨by simp, by simp, ?_, by simp [h]⟩
    intro e' he'
    cases he'
    exact ⟨{ success := true, project_id := project_id, task_id := e.task_id,
             status := e.status, progress := e.progress,
             message := e.message.getD "처리 중...", video_url := e.video_url,
             model := e.model.pyStr }, rfl, rfl, rfl, rfl, rfl, rfl⟩

/-- Witness for C10: a one-entry store read at a missing and at a present
project id. -/
theorem get_video_progress_spec_witness :
    ((get_video_progress [("p1", initialTaskEntry "t1" VideoModel.kling)] "p2").1 =
      Except.error { status_code := 404, detail := "프로젝트를 찾을 수 없습니다." }) ∧
    (∃ r, (get_video_progress [("p1", initialTaskEntry "t1" VideoModel.kling)] "p1").1 =
      Except.ok r ∧ r.status = "processing" ∧ r.progress = 10) := by
  constructor
  · exact (get_video_progress_spec [("p1", initialTaskEntry "t1" VideoModel.kling)] "p2").2.1
      (by decide)
  · obtain ⟨r, hr, _, hs, hp, _, _⟩ :=
      (get_video_progress_spec [("p1", initialTaskEntry "t1" VideoModel.kling)] "p1").2.2.1
        (initialTaskEntry "t1" VideoModel.kling) (by decide)
    exact ⟨r, hr, by rw [hs]; rfl, by rw [hp]; rfl⟩

/-- C4: for a video request targeting Kling (configured official-only), if
the official adapter is unavailable the not-configured fatal error is
returned with no adapter invoked at all; if the official submission fails,
that failure is returned directly; in both cases — and even on success —
the GoAPI adapter is never invoked. -/
theorem kling_official_only_no_fallback (env : AdapterEnv) (request : VideoRequest)
    (hm : request.model = VideoModel.kling) :
    (env.kling_official_available = false →
      FactoryEngine.generate_video env request =
        ({ success := false, status := "error",
           message := "Kling Official API 키가 설정되지 않았습니다. (GoAPI 폴백 비활성화)" }, [])) ∧
    (env.kling_official_available = true →
      (env.kling_official_submit request).success = false →
      FactoryEngine.generate_video env request =
        (env.kling_official_submit request, ["kling_official"])) ∧
    "goapi" ∉ (FactoryEngine.generate_video env request).2 := by
  unfold FactoryEngine.generate_video
  rw [if_pos hm]
  refine ⟨fun hk => by simp [hk], fun hk hs => by simp [hk, hs], ?_⟩
  by_cases hk : env.kling_official_available
  · by_cases hs : (env.kling_official_submit request).success <;> simp [hk, hs]
  · simp [hk]

/-- Witness for C4: a Kling request against an environment whose official
adapter always fails, and one where it is unavailable. -/
theorem kling_official_only_no_fallback_witness :
    (FactoryEngine.generate_video
        { kling_official_available := true, goapi_available := true,
          kling_official_submit := fun _ =>
            { success := false, status := "error", message := "Kling API 오류: quota" },
          goapi_submit := fun _ => { success := true, task_id := some "g1" } }
        { project_id := "p", prompt := "car", model := VideoModel.kling } =
      ({ success := false, status := "error", message := "Kling API 오류: quota" },
        ["kling_official"])) ∧
    (FactoryEngine.generate_video
        { kling_official_available := false, goapi_available := true,
          kling_official_submit := fun _ =>
            { success := false, status := "error", message := "Kling API 오류: quota" },
          goapi_submit := fun _ => { success := true, task_id := some "g1" } }
        { project_id := "p", prompt := "car", model := VideoModel.kling } =
      ({ success := false, status := "error",
         message := "Kling Official API 키가 설정되지 않았습니다. (GoAPI 폴백 비활성화)" }, [])) := by
  constructor
  · exact (kling_official_only_no_fallback _ _ rfl).2.1 rfl rfl
  · exact (kling_official_only_no_fallback _ _ rfl).1 rfl

/-- C5 counterexample: processing an image generation request whose model
is GEMINI rewrites the caller's request object (its `model` field becomes
FLUX, factory_engine.py line 1986), so the submitted request is not
immutable. -/
theorem generate_image_mutates_request_cex :
    FactoryEngine.generate_image_requestAfter { prompt := "a cat", model := ImageModel.gemini } ≠
      { prompt := "a cat", model := ImageModel.gemini } := by
  decide

/-- C5 as amended: `generate_video` never modifies any field of the
caller's request object; `generate_image` leaves every field of the request
unchanged except `model`, which it rewrites from GEMINI to FLUX (and leaves
unchanged for every non-GEMINI request). -/
theorem request_mutation_spec :
    (∀ request : VideoRequest,
        FactoryEngine.generate_video_requestAfter request = request) ∧
    (∀ request : ImageRequest, request.model ≠ ImageModel.gemini →
        FactoryEngine.generate_image_requestAfter request = request) ∧
    (∀ request : ImageRequest,
        (FactoryEngine.generate_image_requestAfter request).prompt = request.prompt ∧
        (FactoryEngine.generate_image_requestAfter request).aspect_ratio = request.aspect_ratio ∧
        (FactoryEngine.generate_image_requestAfter request).style = request.style ∧
        (FactoryEngine.generate_image_requestAfter request).negative_prompt =
          request.negative_prompt ∧
        (FactoryEngine.generate_image_requestAfter request).model =
          (if request.model = ImageModel.gemini then ImageModel.flux else request.model)) := by
  refine ⟨fun _ => rfl, fun request h => ?_, fun request => ?_⟩
  · unfold FactoryEngine.generate_image_requestAfter
    rw [if_neg h]
  · unfold FactoryEngine.generate_image_requestAfter
    by_cases h : request.model = ImageModel.gemini <;> simp [h]

/-- Witness for C5 (amended): a FLUX request is left untouched. -/
theorem request_mutation_spec_witness :
    FactoryEngine.generate_image_requestAfter { prompt := "a dog", model := ImageModel.flux } =
      { prompt := "a dog", model := ImageModel.flux } :=
  request_mutation_spec.2.1 { prompt := "a dog", model := ImageModel.flux } (by decide)

/-- C6: when submission with the preferred audio model fails, exactly one
alternate model (Suno ↔ Udio) is attempted; a successful alternate's
response is returned with its message tagged `"[Fallback] "` so the caller
can observe the substitution; when both fail, the combined failure message
embeds both underlying error messages (each truncated to its first 100
characters by the source's `[:100]`, which preserves them in full whenever
they are at most 100 characters long — as the messages built by
`_generate_music_with_model` are). -/
theorem music_fallback_spec (attempt : AudioModel → MusicResponse)
    (preferred_model : AudioModel)
    (hfail : (attempt preferred_model).success = false) :
    ((attempt (if preferred_model = AudioModel.suno then AudioModel.udio
        else AudioModel.suno)).success = true →
      GoAPIClient.generate_music true attempt preferred_model =
        ({ attempt (if preferred_model = AudioModel.suno then AudioModel.udio
              else AudioModel.suno) with
            message := "[Fallback] " ++
              (attempt (if preferred_model = AudioModel.suno then AudioModel.udio
                else AudioModel.suno)).message },
          [preferred_model,
           if preferred_model = AudioModel.suno then AudioModel.udio
             else AudioModel.suno])) ∧
    ((attempt (if preferred_model = AudioModel.suno then AudioModel.udio
        else AudioModel.suno)).success = false →
      (attempt preferred_model).message.data.length ≤ 100 →
      (attempt (if preferred_model = AudioModel.suno then AudioModel.udio
        else AudioModel.suno)).message.data.length ≤ 100 →
      GoAPIClient.generate_music true attempt preferred_model =
        ({ success := false, status := "error",
           message := "Suno, Udio 모두 실패. Suno: " ++ (attempt preferred_model).message ++
             " / Udio: " ++
             (attempt (if preferred_model = AudioModel.suno then AudioModel.udio
               else AudioModel.suno)).message },
          [preferred_model,
           if preferred_model = AudioModel.suno then AudioModel.udio
             else AudioModel.suno])) ∧
    (if preferred_model = AudioModel.suno then AudioModel.udio
      else AudioModel.suno) ≠ preferred_model := by
  refine ⟨?_, ?_, ?_⟩
  · intro hs
    unfold GoAPIClient.generate_music
    simp [hfail, hs]
  · intro hs h1 h2
    unfold GoAPIClient.generate_music
    simp [hfail, hs, pyTake_of_length_le _ _ h1, pyTake_of_length_le _ _ h2]
  · cases preferred_model <;> decide

/-- Witness for C6: a preferred Suno submission failing with the source's
HTTP-failure message and (a) a succeeding, (b) a failing Udio fallback. -/
theorem music_fallback_spec_witness :
    (GoAPIClient.generate_music true
        (fun m => if m = AudioModel.suno then
            { success := false, status := "error",
              message := GoAPIClient.music_http_failure_message AudioModel.suno 500,
              model := "suno" }
          else
            { success := true, task_id := some "u1", status := "processing",
              message := "UDIO 음악 생성이 시작되었습니다.", model := "udio" })
        AudioModel.suno).1.message = "[Fallback] UDIO 음악 생성이 시작되었습니다." ∧
    (GoAPIClient.generate_music true
        (fun m => if m = AudioModel.suno then
            { success := false, status := "error",
              message := GoAPIClient.music_http_failure_message AudioModel.suno 500,
              model := "suno" }
          else
            { success := false, status := "error",
              message := GoAPIClient.music_conn_failure_message AudioModel.udio,
              model := "udio" })
        AudioModel.suno).1.message =
      "Suno, Udio 모두 실패. Suno: " ++
        GoAPIClient.music_http_failure_message AudioModel.suno 500 ++ " / Udio: " ++
        GoAPIClient.music_conn_failure_message AudioModel.udio := by
  constructor
  · rw [(music_fallback_spec _ AudioModel.suno (by decide)).1 (by decide)]
    decide
  · rw [(music_fallback_spec _ AudioModel.suno (by decide)).2.1 (by decide) (by decide)
      (by decide)]
    decide

/-- C7 counterexample: an edit/compose call made while the editing
provider's credentials are absent does *not* report "not configured" — it
returns a successful dummy response with status `"completed"` echoing the
original video URL (factory_engine.py lines 1768-1779). -/
theorem auto_edit_no_credentials_succeeds_cex :
    (CreatomateClient.auto_edit false { success := false } "p1" "http://v.mp4").success = true ∧
    (CreatomateClient.auto_edit false { success := false } "p1" "http://v.mp4").status =
      "completed" ∧
    (CreatomateClient.auto_edit false { success := false } "p1" "http://v.mp4").video_url =
      some "http://v.mp4" ∧
    (CreatomateClient.auto_edit false { success := false } "p1" "http://v.mp4").message =
      "자막이 추가되었습니다. (Creatomate 미연동)" := by
  refine ⟨rfl, rfl, rfl, rfl⟩

/-- C7 as amended: generation calls guard their credentials — GoAPI video
generation and music generation with an absent API key report the
not-configured error without attempting any network submission — but the
edit/compose call `auto_edit` with absent editing credentials returns a
*successful* dummy response (status `"completed"`, original URL echoed)
instead of a not-configured error. -/
theorem missing_credentials_spec :
    (∀ (submit : VideoResponse) (request : VideoRequest),
        GoAPIClient.generate_video false submit request =
          { success := false, status := "error",
            message := "GoAPI 키가 설정되지 않았습니다.", model := request.model.value }) ∧
    (∀ (attempt : AudioModel → MusicResponse) (preferred_model : AudioModel),
        GoAPIClient.generate_music false attempt preferred_model =
          ({ success := false, status := "error",
             message := "GoAPI 키가 설정되지 않았습니다." }, [])) ∧
    (∀ (render_result : VideoResponse) (project_id video_url : String),
        (CreatomateClient.auto_edit false render_result project_id video_url).success = true ∧
        (CreatomateClient.auto_edit false render_result project_id video_url).status =
          "completed" ∧
        (CreatomateClient.auto_edit false render_result project_id video_url).video_url =
          some video_url) := by
  exact ⟨fun _ _ => rfl, fun _ _ => rfl, fun _ _ _ => ⟨rfl, rfl, rfl⟩⟩

end StudioJuai
